import Mathlib

/-!
Verification of the NocoDB MCP server core (`src/nocodb_mcp_server.py`)
against its natural-language specification.

The embedding is shallow: Python values flowing through the filter
builder, name resolver and tool operations are modelled by the `PyVal`
inductive type; a raised Python exception is an `Except.error` carrying
a `PyErr`; remote HTTP calls are an oracle function from the request
the code builds to an abstract `HttpResult`.  Every definition is
translated from the source file; deviations forced by the model (ASCII
string operations, exclusion of binary floating point from numeric
parsing) are flagged in the corresponding doc comments.
-/

set_option maxHeartbeats 1000000

namespace Nocodb

/-! ## Basic string helpers

All string manipulation is done on the underlying character lists so
that every definition reduces in the kernel.  The Python operations
modelled here (`str.strip`, `str.lower`, `str.replace` with one-char
patterns, `str.split`, `"sep".join`) act per character / per
occurrence, so the list-level implementations are exact on the ASCII
fragment the server manipulates.
-/

/-- Python `str.strip()` (no argument): remove leading and trailing
whitespace.  Lean's `Char.isWhitespace` covers the ASCII whitespace
Python strips; exotic Unicode space classes are outside the model. -/
def pyStrip (s : String) : String :=
  String.mk (((s.data.dropWhile Char.isWhitespace).reverse.dropWhile Char.isWhitespace).reverse)

/-- Python `str.lower()`, ASCII fragment (`Char.toLower` only maps
`A`–`Z`; Python's full Unicode lowering is outside the model). -/
def pyLower (s : String) : String :=
  String.mk (s.data.map Char.toLower)

/-- Python `s.rstrip("/")`: drop trailing `/` characters. -/
def pyRstripSlash (s : String) : String :=
  String.mk ((s.data.reverse.dropWhile (fun c => c = '/')).reverse)

/-- `s.lower().replace("_", "").replace(" ", "")` from `get_table_id`
(line 73/83).  Both `replace` calls have one-character patterns and an
empty replacement, so they are exactly per-character deletion. -/
def pyNormalize (s : String) : String :=
  String.mk (((s.data.map Char.toLower).filter (fun c => c ≠ '_')).filter (fun c => c ≠ ' '))

/-- Python `"sep".join(parts)`. -/
def sepJoin (sep : String) : List String → String
  | [] => ""
  | [x] => x
  | x :: y :: xs => x ++ sep ++ sepJoin sep (y :: xs)

/-- Python `s.replace("'", "''")` (the SQL-style quote doubling used
throughout the where-builder).  The pattern is a single character, so
the replacement is exactly this per-character map. -/
def pyDoubleQuotes (s : String) : String :=
  String.mk (s.data.flatMap (fun c => if c = '\'' then ['\'', '\''] else [c]))

/-- Python `s.split("::")` on the character list: non-overlapping,
leftmost-first splitting on the two-character separator. -/
def splitCCAux : List Char → List Char → List (List Char)
  | [], acc => [acc.reverse]
  | ':' :: ':' :: rest, acc => acc.reverse :: splitCCAux rest []
  | c :: rest, acc => splitCCAux rest (c :: acc)

/-- Python `s.split("::")`. -/
def pySplitColons (s : String) : List String :=
  (splitCCAux s.data []).map String.mk

/-- Python truthiness of an optional string (`None` and `""` are
falsy). -/
def pyTruthyOpt : Option String → Bool
  | none => false
  | some s => s ≠ ""

/-- Python `a or b` on optional strings: `a` when truthy, else `b`
(which may itself be `None` or empty). -/
def pyOrOpt (a b : Option String) : Option String :=
  if pyTruthyOpt a then a else b

/-- Python `a or d` with a string default: the value of `a` when
truthy, else `d`. -/
def pyOrStr (a : Option String) (d : String) : String :=
  if pyTruthyOpt a then a.getD "" else d

/-! ## Python values

`PyVal` is the embedded domain of Python/JSON values the server
manipulates: `None`, `bool`, `int`, `str`, `list`, `dict`.  Binary
floating-point numbers are deliberately excluded from the domain (a
floating-point concession of the model); integers are unbounded. -/

inductive PyVal where
  | null : PyVal
  | bool (b : Bool) : PyVal
  | int (n : Int) : PyVal
  | str (s : String) : PyVal
  | list (vs : List PyVal) : PyVal
  | obj (kvs : List (String × PyVal)) : PyVal

/-- Python `isinstance(v, list)` (tuples are identified with lists in
the model). -/
def PyVal.isList : PyVal → Bool
  | .list _ => true
  | _ => false

/-- Python `v is None`. -/
def PyVal.isNone : PyVal → Bool
  | .null => true
  | _ => false

/-- Python `repr` of a string: quote choice (double quotes when the
string contains `'` but no `"`), backslash doubling, escaping of the
active quote and of newline/CR/tab.  Other control characters and
non-ASCII escapes are outside the model. -/
def pyReprStr (s : String) : String :=
  let esc : Char → Char → List Char := fun quote c =>
    if c = '\\' then ['\\', '\\']
    else if c = quote then ['\\', quote]
    else if c = '\n' then ['\\', 'n']
    else if c = '\r' then ['\\', 'r']
    else if c = '\t' then ['\\', 't']
    else [c]
  if s.data.contains '\'' ∧ ¬ s.data.contains '"' then
    "\"" ++ String.mk (s.data.flatMap (esc '"')) ++ "\""
  else
    "'" ++ String.mk (s.data.flatMap (esc '\'')) ++ "'"

mutual

/-- Python `repr` of a value (used by `str` on lists and dicts). -/
def pyRepr : PyVal → String
  | .null => "None"
  | .bool b => if b then "True" else "False"
  | .int n => toString n
  | .str s => pyReprStr s
  | .list vs => "[" ++ sepJoin ", " (pyReprList vs) ++ "]"
  | .obj kvs => "\x7b" ++ sepJoin ", " (pyReprPairs kvs) ++ "\x7d"

def pyReprList : List PyVal → List String
  | [] => []
  | v :: vs => pyRepr v :: pyReprList vs

def pyReprPairs : List (String × PyVal) → List String
  | [] => []
  | kv :: kvs => (pyReprStr kv.1 ++ ": " ++ pyRepr kv.2) :: pyReprPairs kvs

end

/-- Python `str(v)`: identity on strings, `repr` elsewhere (`int`,
`bool`, `None`, containers all print as their `repr`). -/
def pyStr : PyVal → String
  | .str s => s
  | v => pyRepr v

/-! ## Python exceptions -/

/-- The exception kinds the modelled code can raise.  `valueError`
covers both explicit `raise ValueError(...)` and the tuple-unpacking
`ValueError`; `httpStatusError` is `httpx.HTTPStatusError` carrying the
response's status code and text; `requestError` is an `httpx`
transport failure; `jsonDecodeError` is `json.JSONDecodeError` from
`resp.json()`. -/
inductive PyErr where
  | valueError (msg : String) : PyErr
  | httpStatusError (status : Nat) (text : String) : PyErr
  | requestError (msg : String) : PyErr
  | jsonDecodeError (msg : String) : PyErr
  | keyError (msg : String) : PyErr
  | typeError (msg : String) : PyErr
  | attributeError (msg : String) : PyErr
deriving DecidableEq

/-- Python `str(e)` on the exceptions above (for `KeyError` Python
prints the `repr` of the missing key, which is the stored string). -/
def pyErrStr : PyErr → String
  | .valueError m => m
  | .httpStatusError s t => "HTTP status error " ++ toString s ++ ": " ++ t
  | .requestError m => m
  | .jsonDecodeError m => m
  | .keyError m => m
  | .typeError m => m
  | .attributeError m => m

/-! ## WHERE builder (`src/nocodb_mcp_server.py` lines 437–508) -/

/-- `_ALLOWED_OPS` (line 439). -/
def _ALLOWED_OPS : List String :=
  ["eq", "neq", "gt", "gte", "lt", "lte", "like", "in", "nin", "between"]

/-- The element formatter of the `in`/`nin` branch (lines 449–454):
numbers (and, via `isinstance(v, (int, float))`, booleans) are emitted
with `str`, everything else is single-quoted with embedded quotes
doubled. -/
def fmtListElem : PyVal → String
  | .int n => toString n
  | .bool b => if b then "True" else "False"
  | v => "'" ++ pyDoubleQuotes (pyStr v) ++ "'"

/-- `_fmt_value_for_where(value, op)` (lines 441–466).  The branches
appear in source order: `None` first, then `in`/`nin`, then `between`
(which returns the internal `__BETWEEN__::a::b` marker or raises on a
value that is not a two-element list), then numeric, then the quoted
string fallback. -/
def _fmt_value_for_where (value : PyVal) (op : String) : Except PyErr String :=
  if value.isNone then .ok "null"
  else if op = "in" ∨ op = "nin" then
    let value' := match value with
      | .list vs => vs
      | v => [v]
    .ok ("(" ++ sepJoin "," (value'.map fmtListElem) ++ ")")
  else if op = "between" then
    match value with
    | .list [a, b] =>
        .ok ("__BETWEEN__::" ++ pyStr a ++ "::" ++ pyStr b)
    | _ => .error (.valueError
        "Operator 'between' requires a two-element list/tuple: [min, max]")
  else match value with
    | .int n => .ok (toString n)
    | .bool b => .ok (if b then "True" else "False")
    | v => .ok ("'" ++ pyDoubleQuotes (pyStr v) ++ "'")

/-- The whitespace characters Python's `float(str)` strips before
parsing (C `Py_ISSPACE`): space, tab, newline, CR, vertical tab, form
feed.  Non-ASCII digits and spaces, which CPython first transliterates
to ASCII, are outside the model. -/
def pyFloatIsSpace (c : Char) : Bool :=
  c = ' ' ∨ c = '\t' ∨ c = '\n' ∨ c = '\r' ∨ c = '\x0b' ∨ c = '\x0c'

/-- Consume one maximal digit run with single underscores allowed
strictly between digits (PEP 515, as `float()` enforces): the
underscores are removed from the returned digits, and the unconsumed
tail follows.  `"1_0x"` yields `("10", "x")`; a `_` not flanked by
digits is left unconsumed (so `"1_."` yields `("1", "_.")`, which the
caller then rejects). -/
def pyDigitRun : List Char → (List Char × List Char)
  | [] => ([], [])
  | c :: '_' :: d :: rest2 =>
      if c.isDigit then
        if d.isDigit then
          let p := pyDigitRun (d :: rest2)
          (c :: p.1, p.2)
        else ([c], '_' :: d :: rest2)
      else ([], c :: '_' :: d :: rest2)
  | c :: rest =>
      if c.isDigit then
        let p := pyDigitRun rest
        (c :: p.1, p.2)
      else ([], c :: rest)

/-- Decimal digits to their value. -/
def digitsToNat (ds : List Char) : Nat :=
  ds.foldl (fun acc c => 10 * acc + (c.toNat - '0'.toNat)) 0

/-- The exact value classes a successful `float(str)` can produce:
a finite decimal literal `(-1)^neg * mant * 10^exp10` (before binary64
rounding), an infinity literal, or a nan literal. -/
inductive PyFloatVal where
  | finite (neg : Bool) (mant : Nat) (exp10 : Int) : PyFloatVal
  | infinite (neg : Bool) : PyFloatVal
  | nan : PyFloatVal
deriving DecidableEq

/-- Exact model of the strings `float(str)` accepts, and of the exact
decimal value each denotes: surrounding whitespace stripped, an
optional sign, then case-insensitive `inf`/`infinity`/`nan` or a
decimal literal `digits[.digits][e|E[sign]digits]` (each digit run
with PEP-515 underscores, at least one mantissa digit, nothing left
over).  String-to-float conversion never raises for out-of-range
values (it rounds to `inf`/`0.0`), so acceptance is exactly this
grammar.  `none` is the `ValueError` path of `float(x)`. -/
def pyFloatParse (s : String) : Option PyFloatVal :=
  let l := (s.data.dropWhile pyFloatIsSpace).reverse.dropWhile pyFloatIsSpace |>.reverse
  let (neg, l) : Bool × List Char :=
    match l with
    | '-' :: rest => (true, rest)
    | '+' :: rest => (false, rest)
    | rest => (false, rest)
  let low := l.map Char.toLower
  if low = "inf".data ∨ low = "infinity".data then some (.infinite neg)
  else if low = "nan".data then some .nan
  else
    let p1 := pyDigitRun l
    let p2 :=
      match p1.2 with
      | '.' :: rest => pyDigitRun rest
      | _ => ([], p1.2)
    if p1.1 = [] ∧ p2.1 = [] then none
    else
      let mant := digitsToNat (p1.1 ++ p2.1)
      let fracLen : Int := (p2.1.length : Int)
      match p2.2 with
      | [] => some (.finite neg mant (-fracLen))
      | e :: rest =>
          if e = 'e' ∨ e = 'E' then
            let (eneg, rest2) : Bool × List Char :=
              match rest with
              | '-' :: r => (true, r)
              | '+' :: r => (false, r)
              | r => (false, r)
            let p3 := pyDigitRun rest2
            if p3.1 ≠ [] ∧ p3.2 = [] then
              let ev : Int := if eneg then -(digitsToNat p3.1 : Int) else (digitsToNat p3.1 : Int)
              some (.finite neg mant (ev - fracLen))
            else none
          else none

/-- Number of decimal digits of `n` (as rendered). -/
def digitLen (n : Nat) : Nat := (toString n).length

/-- Whether `mant * 10^exp10` (nonzero) rounds to infinity in binary64
round-to-nearest-even, i.e. lies at or above `2^1024 - 2^970` (the
largest finite double plus half an ulp; the midpoint itself rounds up
to the even `2^1024`).  Verified against CPython at the boundary.
Decided by digit count except in the one decade containing the
threshold, where the comparison is exact integer arithmetic. -/
def floatOverflows (mant : Nat) (exp10 : Int) : Bool :=
  if mant = 0 then false
  else
    let L : Int := (digitLen mant : Int)
    if 310 ≤ L + exp10 then true
    else if L + exp10 ≤ 308 then false
    else if 0 ≤ exp10 then 2 ^ 1024 - 2 ^ 970 ≤ mant * 10 ^ exp10.toNat
    else (2 ^ 1024 - 2 ^ 970) * 10 ^ (-exp10).toNat ≤ mant

/-- Whether `mant * 10^exp10` (nonzero) rounds to zero in binary64:
at or below `2^(-1075)` (half the smallest subnormal; the midpoint
rounds to the even `0.0`).  Same band technique as `floatOverflows`. -/
def floatRoundsToZero (mant : Nat) (exp10 : Int) : Bool :=
  if mant = 0 then true
  else
    let L : Int := (digitLen mant : Int)
    if L + exp10 ≤ -324 then true
    else if -322 ≤ L + exp10 then false
    else mant * 2 ^ 1075 ≤ 10 ^ (-exp10).toNat

/-- The exact integer value of `mant * 10^exp10` when it is an
integer (guarded so no oversized power is ever computed: a nonzero
mantissa of `d` digits cannot be divisible by `10^k` for `k > d`). -/
def finiteIntValue (mant : Nat) (exp10 : Int) : Option Nat :=
  if mant = 0 then some 0
  else if 0 ≤ exp10 then some (mant * 10 ^ exp10.toNat)
  else if digitLen mant < (-exp10).toNat then none
  else if mant % 10 ^ (-exp10).toNat = 0 then some (mant / 10 ^ (-exp10).toNat)
  else none

/-- Canonical positional rendering of the fraction `mant / 10^k`
(`mant ≠ 0`, `k ≥ 1`, value not an integer): digits split around the
decimal point, trailing fraction zeros stripped — the form
`str(float(x)).rstrip('0').rstrip('.')` has on short fractions. -/
def positionalFrac (mant : Nat) (k : Nat) : String :=
  let ds := (toString mant).data
  if k < ds.length then
    let ip := ds.take (ds.length - k)
    let fp := ((ds.drop (ds.length - k)).reverse.dropWhile (fun c => c = '0')).reverse
    if fp.isEmpty then String.mk ip else String.mk ip ++ "." ++ String.mk fp
  else
    let ds' := (ds.reverse.dropWhile (fun c => c = '0')).reverse
    "0." ++ String.mk (List.replicate (k - ds.length) '0') ++ String.mk ds'

/-- `str(float(x)).rstrip('0').rstrip('.')` for an accepted finite
literal.  Exact (binary64 rounding provably cannot intervene) on:
overflowing magnitudes (→ `inf`), integer values of magnitude at most
`2^53` (doubles are exact there and `str` prints positionally below
`10^16`, so the pipeline leaves the plain decimal; `-0` stays `-0`),
and magnitudes rounding to zero (→ `0`/`-0`).  Outside those regions
— fractional or larger values, where the true output is the binary64
shortest-round-trip repr, possibly in exponent notation — the model
renders the exact decimal value positionally instead; that region is
outside the exact fragment (`numExactFrag`) and no theorem evaluates
it. -/
def pyFloatFormat (neg : Bool) (mant : Nat) (exp10 : Int) : String :=
  if floatOverflows mant exp10 then (if neg then "-inf" else "inf")
  else
    match finiteIntValue mant exp10 with
    | some m => if neg ∧ m = 0 then "-0" else if neg then "-" ++ toString m else toString m
    | none =>
        if floatRoundsToZero mant exp10 then (if neg then "-0" else "0")
        else (if neg then "-" else "") ++ positionalFrac mant (-exp10).toNat

/-- `_num_or_str(x)` from `_make_condition` (lines 477–482):
`str(float(x)).rstrip('0').rstrip('.')` when `float(x)` succeeds,
and the single-quoted escaped fallback when it raises (the bare
`except` catches the `ValueError` of a non-literal; conversion from a
string never raises for out-of-range values).  Acceptance is the
exact `pyFloatParse`; rendering is `pyFloatFormat` with its
documented exact fragment. -/
def _num_or_str (x : String) : String :=
  match pyFloatParse x with
  | some (.finite neg mant exp10) => pyFloatFormat neg mant exp10
  | some (.infinite neg) => if neg then "-inf" else "inf"
  | some .nan => "nan"
  | none => "'" ++ pyDoubleQuotes x ++ "'"

/-- `float(x)` succeeds on `x`. -/
def pyFloatAccepts (s : String) : Bool :=
  (pyFloatParse s).isSome

/-- The strings denoting integers of magnitude at most `2^53` under
`float()` (sign returned separately) — the integer part of the exact
fragment of `pyFloatFormat`. -/
def pyFloatSmallInt (s : String) : Option (Bool × Nat) :=
  match pyFloatParse s with
  | some (.finite neg mant exp10) =>
      if floatOverflows mant exp10 then none
      else
        match finiteIntValue mant exp10 with
        | some m => if m ≤ 2 ^ 53 then some (neg, m) else none
        | none => none
  | _ => none

/-- The strings on which `_num_or_str` is exact (no binary64 rounding
can intervene): `float()` rejects the string (quoted fallback), or it
denotes nan, an infinity, an overflowing magnitude, an integer of
magnitude at most `2^53`, or a magnitude rounding to zero. -/
def numExactFrag (s : String) : Bool :=
  match pyFloatParse s with
  | none => true
  | some .nan => true
  | some (.infinite _) => true
  | some (.finite _ mant exp10) =>
      floatOverflows mant exp10 ||
        (match finiteIntValue mant exp10 with
         | some m => m ≤ 2 ^ 53
         | none => floatRoundsToZero mant exp10)

/-- The per-condition expression `f"({field},{op},{v})"` (line 486). -/
def condStr (field op v : String) : String :=
  "(" ++ field ++ "," ++ op ++ "," ++ v ++ ")"

/-- The expanded `between` compound
`f"and(({field},gte,{a}),({field},lte,{b}))"` (line 485). -/
def betweenStr (field a b : String) : String :=
  "and((" ++ field ++ ",gte," ++ a ++ "),(" ++ field ++ ",lte," ++ b ++ "))"

/-- `_make_condition(field, op, value)` (lines 468–486).  The
`between` marker is split back on `"::"`; Python's
`_, a, b = v.split("::")` raises a `ValueError` when the split does
not produce exactly three parts (which happens when a bound's string
form interferes with the `::` marker). -/
def _make_condition (field : String) (op : String) (value : PyVal) : Except PyErr String := do
  let op := pyLower op
  if ¬ _ALLOWED_OPS.contains op then
    throw (.valueError ("Unsupported op '" ++ op ++ "'. Allowed: ['between', 'eq', 'gt', 'gte', 'in', 'like', 'lt', 'lte', 'neq', 'nin']"))
  else
    let v ← _fmt_value_for_where value op
    if op = "between" then
      match pySplitColons v with
      | [_, a, b] =>
          pure (betweenStr field (_num_or_str a) (_num_or_str b))
      | parts =>
          if parts.length < 3 then
            throw (.valueError ("not enough values to unpack (expected 3, got " ++ toString parts.length ++ ")"))
          else
            throw (.valueError "too many values to unpack (expected 3)")
    else
      pure (condStr field op v)

/-- One condition dict `{"field": ..., "op": ..., "value": ...}` of
`_build_where`.  `field = none` models an absent (or `None`) `field`
key, `op = none` an absent `op` key (defaulted to `"eq"` by
`c.get("op", "eq")`), and `value = .null` an absent `value` key
(`c.get("value")` returns `None`). -/
structure Condition where
  field : Option String := none
  op : Option String := none
  value : PyVal := .null

/-- The loop body of `_build_where` (lines 499–505): read the
condition's keys, reject a falsy `field`, and build the per-condition
expression. -/
def condExpr (c : Condition) : Except PyErr String :=
  if ¬ pyTruthyOpt c.field then
    .error (.valueError "Each condition must include 'field'")
  else
    _make_condition (c.field.getD "") (c.op.getD "eq") c.value

/-- The accumulation loop of `_build_where` (lines 498–505): one
per-condition expression per input condition, in input order, aborted
by the first raised exception. -/
def buildParts : List Condition → Except PyErr (List String)
  | [] => .ok []
  | c :: cs => do
      let p ← condExpr c
      let ps ← buildParts cs
      pure (p :: ps)

/-- `_build_where(conditions, logic)` (lines 488–508). -/
def _build_where (conditions : List Condition) (logic : String) : Except PyErr String := do
  if conditions.isEmpty then
    throw (.valueError "At least one condition is required")
  else
    let logic := pyLower logic
    if ¬ (logic = "and" ∨ logic = "or") then
      throw (.valueError "logic must be 'and' or 'or'")
    else
      let parts ← buildParts conditions
      match parts with
      | [p] => pure p
      | _ => pure (logic ++ "(" ++ sepJoin "," parts ++ ")")

/-! ## Name resolver (`get_table_id`, lines 53–90) -/

/-- One table dict from the remote catalog.  `none` models an absent
key (or a `None` value, which `dict.get` makes indistinguishable from
absence in all the code below except the `t["id"]` access, where a
present-`None` and a missing key both fail; `none` maps to the missing
key's `KeyError` there). -/
structure Table where
  id : Option String := none
  title : Option String := none
  table_name : Option String := none
  name : Option String := none
deriving DecidableEq

/-- `candidates` (lines 75–78): `[t.get("title") or "",
t.get("table_name") or t.get("name") or ""]`. -/
def tableCandidates (t : Table) : List String :=
  [pyOrStr t.title "", pyOrStr (pyOrOpt t.table_name t.name) ""]

/-- The inner matching of the second loop (lines 79–85): some
candidate equals the trimmed needle, or its normalization equals the
needle's normalization.  Each candidate is tried exact-first, but both
checks select the same table, so per table the test is this
disjunction. -/
def tableMatches (t : Table) (needle_raw needle_norm : String) : Bool :=
  (tableCandidates t).any (fun cand =>
    let cand_raw := pyStrip cand
    cand_raw == needle_raw || pyNormalize cand_raw == needle_norm)

/-- Python `repr` of an optional string (`repr(None)` is `None`). -/
def reprOptStr : Option String → String
  | none => "None"
  | some s => pyReprStr s

/-- The repr of one entry of the `Available:` list in the not-found
message (line 89): `{'id': t.get('id'), 'title': t.get('title'),
'name': t.get('table_name') or t.get('name')}`. -/
def tableReprDict (t : Table) : String :=
  "\x7b'id': " ++ reprOptStr t.id ++ ", 'title': " ++ reprOptStr t.title ++
    ", 'name': " ++ reprOptStr (pyOrOpt t.table_name t.name) ++ "\x7d"

/-- The `ValueError` message of lines 87–90. -/
def tableNotFoundMsg (table_name base : String) (tables : List Table) : String :=
  "Table '" ++ table_name ++ "' not found in base '" ++ base ++
    "'. Available: [" ++ sepJoin ", " (tables.map tableReprDict) ++ "]"

/-- The pure matching part of `get_table_id` (lines 67–90), applied to
the already-fetched table list.  First loop: exact id match over the
whole sequence (a hit returns `t["id"]`, which equals `table_name`).
Second loop: per table, per candidate (title first, then
table_name/name), exact trimmed match or normalized match — the first
table with any matching candidate wins and its `t["id"]` is returned
(`KeyError` when that table has no id). -/
def get_table_id_match (tables : List Table) (base table_name : String) :
    Except PyErr String :=
  if tables.any (fun t => t.id == some table_name) then .ok table_name
  else
    let needle_raw := pyStrip table_name
    let needle_norm := pyNormalize needle_raw
    match tables.find? (fun t => tableMatches t needle_raw needle_norm) with
    | some t =>
        match t.id with
        | some i => .ok i
        | none => .error (.keyError "'id'")
    | none => .error (.valueError (tableNotFoundMsg table_name base tables))

/-! ## Configuration, client and HTTP oracle -/

/-- The environment variables the server reads. -/
structure Env where
  nocodb_url : Option String := none
  nocodb_api_token : Option String := none
  nocodb_base_id : Option String := none

/-- `_resolve_base_id(base_id)` (lines 30–34). -/
def _resolve_base_id (base_id : Option String) (env : Env) : Except PyErr String :=
  let base := pyOrOpt base_id env.nocodb_base_id
  if ¬ pyTruthyOpt base then
    .error (.valueError "NocoDB Base ID is not provided (param base_id or ENV NOCODB_BASE_ID).")
  else .ok (base.getD "")

/-- `get_nocodb_client(nocodb_url, api_token)` (lines 36–51): resolve
the URL (param, then env, then `""`, with trailing slashes stripped)
and the token, raising `ValueError` when either is missing.  The
returned pair stands for the configured `httpx.AsyncClient` (base URL,
token); headers and timeout carry no information the claims need. -/
def get_nocodb_client (nocodb_url api_token : Option String) (env : Env) :
    Except PyErr (String × String) :=
  let url := pyRstripSlash (pyOrStr (pyOrOpt nocodb_url env.nocodb_url) "")
  let token := pyOrOpt api_token env.nocodb_api_token
  if url = "" then
    .error (.valueError "NocoDB URL is not provided (param nocodb_url or ENV NOCODB_URL).")
  else if ¬ pyTruthyOpt token then
    .error (.valueError "NocoDB API token is not provided (param api_token or ENV NOCODB_API_TOKEN).")
  else .ok (url, token.getD "")

/-- One HTTP request as the code builds it: method, path relative to
the client's base URL, query parameters in insertion order (integers
rendered decimally, as on the wire), and the JSON body, if any. -/
structure Request where
  method : String
  url : String
  params : List (String × String) := []
  body : Option PyVal := none

/-- What the remote side does with one request: either a response
(status code, body text, and the outcome of parsing the body as JSON —
`Except.error` stands for `json.JSONDecodeError` with the message the
parser would produce) or a transport failure (`httpx.RequestError`,
covering network errors and the 30-second timeout). -/
inductive HttpResult where
  | resp (status : Nat) (text : String) (json : Except String PyVal) : HttpResult
  | err (msg : String) : HttpResult

/-- An HTTP oracle: the remote behaviour each operation is verified
against, for every possible behaviour. -/
def HttpOracle := Request → HttpResult

/-- `client.get(url, params=...)`. -/
def Request.get (url : String) (params : List (String × String) := []) : Request :=
  { method := "GET", url := url, params := params }

/-- `client.post(url, json=...)`. -/
def Request.post (url : String) (body : PyVal) : Request :=
  { method := "POST", url := url, body := some body }

/-- `client.patch(url, json=...)`. -/
def Request.patch (url : String) (body : PyVal) : Request :=
  { method := "PATCH", url := url, body := some body }

/-- `client.delete(url)` / `client.request("DELETE", url, json=...)`. -/
def Request.delete (url : String) (body : Option PyVal) : Request :=
  { method := "DELETE", url := url, body := body }

/-- `await client.<method>(...)`: a transport failure raises
`httpx.RequestError`. -/
def httpCall (http : HttpOracle) (req : Request) :
    Except PyErr (Nat × String × Except String PyVal) :=
  match http req with
  | .resp status text json => .ok (status, text, json)
  | .err m => .error (.requestError m)

/-- `resp.raise_for_status()`: `httpx` raises `HTTPStatusError` for
any status outside 200–299, carrying the response. -/
def raise_for_status (status : Nat) (text : String) : Except PyErr Unit :=
  if 200 ≤ status ∧ status < 300 then .ok () else .error (.httpStatusError status text)

/-- `resp.json()`: a parse failure raises `json.JSONDecodeError`. -/
def respJson (j : Except String PyVal) : Except PyErr PyVal :=
  match j with
  | .ok v => .ok v
  | .error m => .error (.jsonDecodeError m)

/-- `dict.get(key, default)` on a JSON object; on a non-dict the
attribute access raises (`AttributeError`). -/
def pyDictGet (v : PyVal) (key : String) (dflt : PyVal) : Except PyErr PyVal :=
  match v with
  | .obj kvs =>
      match kvs.find? (fun kv => kv.1 = key) with
      | some kv => .ok kv.2
      | none => .ok dflt
  | _ => .error (.attributeError ("'" ++ "value' object has no attribute 'get'"))

/-- Read one table dict out of the catalog response.  String-valued
(or absent/`None`) metadata fields are modelled; a non-dict element
raises as `t.get` would, and non-string field values are outside the
modelled fragment (treated as absent — no claim involves them). -/
def decodeTable (v : PyVal) : Except PyErr Table :=
  match v with
  | .obj kvs =>
      let getStr : String → Option String := fun key =>
        match kvs.find? (fun kv => kv.1 = key) with
        | some (_, .str s) => some s
        | _ => none
      .ok { id := getStr "id", title := getStr "title",
            table_name := getStr "table_name", name := getStr "name" }
  | _ => .error (.attributeError ("'" ++ "value' object has no attribute 'get'"))

/-- `resp.json().get("list", [])` iterated as a table list; iterating
a non-list raises `TypeError`. -/
def decodeTables (v : PyVal) : Except PyErr (List Table) :=
  match v with
  | .list vs => vs.mapM decodeTable
  | _ => .error (.typeError "object is not iterable")

/-- `get_table_id(client, base_id, table_name)` (lines 53–90): resolve
the base, fetch the catalog, check the status, parse the body, and run
the pure matching. -/
def get_table_id (base_id : Option String) (env : Env) (table_name : String)
    (http : HttpOracle) : Except PyErr String := do
  let base ← _resolve_base_id base_id env
  let (status, text, json) ← httpCall http
    (Request.get ("/api/v2/meta/bases/" ++ base ++ "/tables"))
  let _ ← raise_for_status status text
  let body ← respJson json
  let listv ← pyDictGet body "list" (.list [])
  let tables ← decodeTables listv
  get_table_id_match tables base table_name

/-! ## Tool operations

Each tool returns `Except PyErr Resp`: `.ok` is a value actually
returned to the caller (either the remote JSON or one of the error
dicts the code builds), while `.error` is an exception that escaped
the operation uncaught. -/

/-- A value returned by a tool: the remote response body, or one of
the dicts the code constructs.  `envelope msg code` is
`{"error": True, "message": msg}` plus `"status_code": code` when
present. -/
inductive Resp where
  | success (body : PyVal) : Resp
  | envelope (message : String) (status_code : Option Nat) : Resp

/-- The `except httpx.HTTPStatusError` / `except Exception` pair every
tool body ends with (e.g. lines 154–157): an `HTTPStatusError` becomes
the envelope with the response's status code and text, any other
exception becomes the envelope with `str(e)` and no status code. -/
def pyCatch (x : Except PyErr PyVal) : Resp :=
  match x with
  | .ok v => .success v
  | .error (.httpStatusError status text) => .envelope text (some status)
  | .error e => .envelope (pyErrStr e) none

/-- The query parameters of the list branch of `retrieve_records`
(lines 144–149), in insertion order. -/
def retrieveParams (limit offset : Option Int) (sort fields filters : Option String) :
    List (String × String) :=
  (match limit with | some l => [("limit", toString l)] | none => []) ++
  (match offset with | some o => [("offset", toString o)] | none => []) ++
  (if pyTruthyOpt sort then [("sort", sort.getD "")] else []) ++
  (if pyTruthyOpt fields then [("fields", fields.getD "")] else []) ++
  (if pyTruthyOpt filters then [("where", filters.getD "")] else [])

/-- `retrieve_records` (lines 114–159).  The client is created
*outside* the `try` (line 135), so a configuration `ValueError`
escapes uncaught (`Except.error`); everything from `get_table_id` on
is inside the handler. -/
def retrieve_records (table_name : String) (row_id filters : Option String)
    (limit offset : Option Int) (sort fields : Option String)
    (nocodb_url api_token base_id : Option String) (env : Env) (http : HttpOracle) :
    Except PyErr Resp :=
  if table_name = "" then .ok (.envelope "Table name is required" none)
  else
    match get_nocodb_client nocodb_url api_token env with
    | .error e => .error e
    | .ok _client => .ok (pyCatch (do
        let table_id ← get_table_id base_id env table_name http
        let (status, text, json) ←
          if pyTruthyOpt row_id then
            httpCall http
              (Request.get ("/api/v2/tables/" ++ table_id ++ "/records/" ++ row_id.getD ""))
          else
            httpCall http
              (Request.get ("/api/v2/tables/" ++ table_id ++ "/records")
                (retrieveParams limit offset sort fields filters))
        let _ ← raise_for_status status text
        respJson json))

/-- The bulk/single data normalization of `create_records`
(lines 180–184): the two `if`s run in sequence, but their guards are
disjoint on `bulk`, so they are equivalently this case split. -/
def create_payload (bulk : Bool) (data : PyVal) : PyVal :=
  if bulk ∧ ¬ data.isList then .list [data]
  else if ¬ bulk ∧ data.isList then
    match data with
    | .list (x :: _) => x
    | _ => .obj []
  else data

/-- The request `create_records` issues (lines 189–193). -/
def create_request (table_id : String) (bulk : Bool) (data : PyVal) : Request :=
  Request.post
    ("/api/v2/tables/" ++ table_id ++ "/records" ++ (if bulk then "/bulk" else ""))
    (create_payload bulk data)

/-- `create_records` (lines 161–201).  As in `retrieve_records`, the
client is created outside the `try`. -/
def create_records (table_name : String) (data : PyVal) (bulk : Bool)
    (nocodb_url api_token base_id : Option String) (env : Env) (http : HttpOracle) :
    Except PyErr Resp :=
  if table_name = "" then .ok (.envelope "Table name is required" none)
  else if data.isNone then .ok (.envelope "Data is required" none)
  else
    match get_nocodb_client nocodb_url api_token env with
    | .error e => .error e
    | .ok _client => .ok (pyCatch (do
        let table_id ← get_table_id base_id env table_name http
        let (status, text, json) ← httpCall http (create_request table_id bulk data)
        let _ ← raise_for_status status text
        respJson json))

/-- Python truthiness of an optional id list (`None` and `[]` falsy),
for the `bulk_ids` checks. -/
def pyTruthyIds : Option (List String) → Bool
  | none => false
  | some l => ¬ l.isEmpty

/-- Python truthiness of an optional dict for `update_records`'s
`if not data` (`None` and `{}` falsy). -/
def pyTruthyData : Option PyVal → Bool
  | none => false
  | some (.obj kvs) => ¬ kvs.isEmpty
  | some .null => false
  | some (.list vs) => ¬ vs.isEmpty
  | some (.str s) => s ≠ ""
  | some (.int n) => n ≠ 0
  | some (.bool b) => b

/-- `update_records` (lines 203–245). -/
def update_records (table_name : String) (row_id : Option String)
    (data : Option PyVal) (bulk : Bool) (bulk_ids : Option (List String))
    (nocodb_url api_token base_id : Option String) (env : Env) (http : HttpOracle) :
    Except PyErr Resp :=
  if table_name = "" then .ok (.envelope "Table name is required" none)
  else if ¬ pyTruthyData data then
    .ok (.envelope "Data parameter is required for updates" none)
  else if bulk ∧ ¬ pyTruthyIds bulk_ids then
    .ok (.envelope "Bulk IDs are required for bulk updates" none)
  else if ¬ bulk ∧ ¬ pyTruthyOpt row_id then
    .ok (.envelope "Row ID is required for single record update" none)
  else
    match get_nocodb_client nocodb_url api_token env with
    | .error e => .error e
    | .ok _client => .ok (pyCatch (do
        let table_id ← get_table_id base_id env table_name http
        let (status, text, json) ←
          if bulk ∧ pyTruthyIds bulk_ids then
            httpCall http
              (Request.patch ("/api/v2/tables/" ++ table_id ++ "/records/bulk")
                (.obj [("ids", .list ((bulk_ids.getD []).map .str)),
                       ("data", data.getD .null)]))
          else
            httpCall http
              (Request.patch ("/api/v2/tables/" ++ table_id ++ "/records/" ++ row_id.getD "")
                (data.getD .null))
        let _ ← raise_for_status status text
        respJson json))

/-- The response reshaping of `delete_records` (lines 279–290),
applied after `raise_for_status`: 204 and non-JSON responses become
fabricated success dicts, numeric bodies (including booleans, which
`isinstance(data, (int, float))` accepts, `int(True)` printing `1`)
become a count message, non-dict bodies are wrapped, dicts pass
through. -/
def delete_reshape (status : Nat) (json : Except String PyVal) : PyVal :=
  if status = 204 then
    .obj [("success", .bool true), ("message", .str "Record(s) deleted successfully")]
  else
    match json with
    | .error _ =>
        .obj [("success", .bool true),
              ("message", .str "Record(s) deleted successfully (non-JSON response)")]
    | .ok data =>
        match data with
        | .int n =>
            .obj [("success", .bool true),
                  ("message", .str (toString n ++ " record(s) deleted successfully"))]
        | .bool b =>
            .obj [("success", .bool true),
                  ("message", .str ((if b then "1" else "0") ++ " record(s) deleted successfully"))]
        | .obj kvs => .obj kvs
        | other =>
            .obj [("success", .bool true),
                  ("message", .str "Record(s) deleted successfully"),
                  ("response_data", other)]

/-- `delete_records` (lines 247–296). -/
def delete_records (table_name : String) (row_id : Option String) (bulk : Bool)
    (bulk_ids : Option (List String))
    (nocodb_url api_token base_id : Option String) (env : Env) (http : HttpOracle) :
    Except PyErr Resp :=
  if table_name = "" then .ok (.envelope "Table name is required" none)
  else if bulk ∧ ¬ pyTruthyIds bulk_ids then
    .ok (.envelope "Bulk IDs are required for bulk deletion" none)
  else if ¬ bulk ∧ ¬ pyTruthyOpt row_id then
    .ok (.envelope "Row ID is required for single record deletion" none)
  else
    match get_nocodb_client nocodb_url api_token env with
    | .error e => .error e
    | .ok _client => .ok (pyCatch (do
        let table_id ← get_table_id base_id env table_name http
        let (status, text, json) ←
          if bulk ∧ pyTruthyIds bulk_ids then
            httpCall http
              (Request.delete ("/api/v2/tables/" ++ table_id ++ "/records/bulk")
                (some (.obj [("ids", .list ((bulk_ids.getD []).map .str))])))
          else
            httpCall http
              (Request.delete ("/api/v2/tables/" ++ table_id ++ "/records/" ++ row_id.getD "")
                none)
        let _ ← raise_for_status status text
        pure (delete_reshape status json)))

/-- `get_schema` (lines 298–324). -/
def get_schema (table_name : String)
    (nocodb_url api_token base_id : Option String) (env : Env) (http : HttpOracle) :
    Except PyErr Resp :=
  if table_name = "" then .ok (.envelope "Table name is required" none)
  else
    match get_nocodb_client nocodb_url api_token env with
    | .error e => .error e
    | .ok _client => .ok (pyCatch (do
        let table_id ← get_table_id base_id env table_name http
        let (status, text, json) ← httpCall http
          (Request.get ("/api/v2/meta/tables/" ++ table_id))
        let _ ← raise_for_status status text
        respJson json))

/-- The local `_fmt` of `find_by_field` (lines 398–415): total — it
never raises (no `between` handling here). -/
def find_by_field_fmt (v : PyVal) (op : String) : String :=
  match v with
  | .null => "null"
  | .int n => toString n
  | .bool b => if b then "True" else "False"
  | .list items =>
      if op = "in" ∨ op = "nin" then
        "(" ++ sepJoin "," (items.map fmtListElem) ++ ")"
      else "'" ++ pyDoubleQuotes (pyStr (.list items)) ++ "'"
  | v' => "'" ++ pyDoubleQuotes (pyStr v') ++ "'"

/-- `find_by_field` (lines 368–435).  Unlike the five tools above, the
client is created *inside* the `try` (line 418), so configuration
errors are caught too. -/
def find_by_field (table_name field : String) (value : PyVal) (op : String)
    (limit : Int)
    (nocodb_url api_token base_id : Option String) (env : Env) (http : HttpOracle) :
    Except PyErr Resp :=
  if table_name = "" then .ok (.envelope "Table name is required" none)
  else if field = "" then .ok (.envelope "Field is required" none)
  else if ¬ (["eq", "neq", "gt", "gte", "lt", "lte", "like", "in", "nin"].contains op) then
    .ok (.envelope ("Unsupported op '" ++ op ++ "'. Allowed: ['eq', 'gt', 'gte', 'in', 'like', 'lt', 'lte', 'neq', 'nin']") none)
  else .ok (pyCatch (do
    let _client ← get_nocodb_client nocodb_url api_token env
    let table_id ← get_table_id base_id env table_name http
    let whereStr := "(" ++ field ++ "," ++ op ++ "," ++ find_by_field_fmt value op ++ ")"
    let (status, text, json) ← httpCall http
      (Request.get ("/api/v2/tables/" ++ table_id ++ "/records")
        [("limit", toString limit), ("where", whereStr)])
    let _ ← raise_for_status status text
    respJson json))

/-- `find_by_fields` (lines 513–567).  The client is created inside
the `try` (line 547); `_build_where`'s `ValueError`s are caught
there. -/
def find_by_fields (table_name : String) (conditions : List Condition)
    (logic : String) (limit offset : Int) (sort fields : Option String)
    (nocodb_url api_token base_id : Option String) (env : Env) (http : HttpOracle) :
    Except PyErr Resp :=
  if table_name = "" then .ok (.envelope "Table name is required" none)
  else if conditions.isEmpty then
    .ok (.envelope "Parameter 'conditions' must be a non-empty list" none)
  else .ok (pyCatch (do
    let _client ← get_nocodb_client nocodb_url api_token env
    let table_id ← get_table_id base_id env table_name http
    let whereStr ← _build_where conditions logic
    let (status, text, json) ← httpCall http
      (Request.get ("/api/v2/tables/" ++ table_id ++ "/records")
        ([("limit", toString limit), ("offset", toString offset),
          ("where", whereStr)] ++
         (if pyTruthyOpt sort then [("sort", sort.getD "")] else []) ++
         (if pyTruthyOpt fields then [("fields", fields.getD "")] else [])))
    let _ ← raise_for_status status text
    respJson json))

/-! ## Auxiliary definitions for the claim statements -/

/-- `small` occurs as a contiguous substring of `big` (stated on the
underlying character lists). -/
def strContains (big small : String) : Prop :=
  ∃ l r, big.data = l ++ small.data ++ r

/-- The value is a two-element Python list. -/
def isTwoEltList : PyVal → Bool
  | .list [_, _] => true
  | _ => false

/-- Executed failure condition of the `between` handling inside one
condition (derived from the source): the formatter rejects any value
that is not a two-element list (with `None` short-circuited to the
string `"null"`, whose `::`-split then fails the three-way unpacking),
and even a two-element list fails when the `__BETWEEN__::a::b` marker
does not split back into exactly three parts. -/
def betweenFails (v : PyVal) : Bool :=
  match v with
  | .null => true
  | .list [a, b] =>
      !((pySplitColons ("__BETWEEN__::" ++ pyStr a ++ "::" ++ pyStr b)).length == 3)
  | _ => true

/-- Executed failure condition of one condition dict in `_build_where`
(derived from the source): falsy `field`, unsupported operator, or a
failing `between` value. -/
def condFails (c : Condition) : Bool :=
  !(pyTruthyOpt c.field) ||
    (let op := pyLower (c.op.getD "eq")
     !(_ALLOWED_OPS.contains op) || (op == "between" && betweenFails c.value))

/-- A tool invocation actually returned a value to the caller
(`Resp`, i.e. either the remote JSON or one of the error-envelope
dicts); `false` means an exception escaped the operation uncaught. -/
def isOkB : Except PyErr Resp → Bool
  | .ok _ => true
  | .error _ => false

/-- Modelled from the claim's words (C6), not from the source: the
enumerated caller-input cases that the claim asserts are *exactly* the
failure domain of `build` — empty condition list, combinator other
than `and`/`or`, a condition lacking a field, an unsupported operator,
or a `between` value that is not exactly a two-element list. -/
def c6ClaimedFailureCases (conditions : List Condition) (logic : String) : Bool :=
  conditions.isEmpty ||
    !(pyLower logic == "and" || pyLower logic == "or") ||
    conditions.any (fun c =>
      !(pyTruthyOpt c.field) ||
        !(_ALLOWED_OPS.contains (pyLower (c.op.getD "eq"))) ||
        (pyLower (c.op.getD "eq") == "between" && !(isTwoEltList c.value)))

/-! ## Helper lemmas -/

theorem exceptOkBind {α β : Type} (a : α) (f : α → Except PyErr β) :
    (Except.ok a : Except PyErr α) >>= f = f a := rfl

theorem exceptErrBind {α β : Type} (e : PyErr) (f : α → Except PyErr β) :
    (Except.error e : Except PyErr α) >>= f = Except.error e := rfl

theorem exceptPureEq {α : Type} (a : α) : (pure a : Except PyErr α) = Except.ok a := rfl

/-- `_make_condition` on a supported non-`between` operator is the
plain `(field,op,value)` formatting of the (lower-cased) operator. -/
theorem makeConditionNotBetween (f op : String) (v : PyVal)
    (hallow : _ALLOWED_OPS.contains (pyLower op) = true)
    (hnb : pyLower op ≠ "between") (e : String)
    (he : _fmt_value_for_where v (pyLower op) = .ok e) :
    _make_condition f op v = .ok (condStr f (pyLower op) e) := by
  have hmem : pyLower op ∈ _ALLOWED_OPS := by simpa using hallow
  simp [_make_condition, hmem, hnb, he, exceptOkBind, exceptPureEq]

/-- `_build_where` past its two validations is the parts loop followed
by the unwrap-or-combine step. -/
theorem buildWhereUnfold (conds : List Condition) (logic : String)
    (hne : conds.isEmpty = false)
    (hl : pyLower logic = "and" ∨ pyLower logic = "or") :
    _build_where conds logic =
      (buildParts conds >>= fun parts =>
        match parts with
        | [p] => pure p
        | _ => pure (pyLower logic ++ "(" ++ sepJoin "," parts ++ ")")) := by
  simp [_build_where, hne, not_not_intro hl]

theorem buildPartsLength (conds : List Condition) (parts : List String)
    (hp : buildParts conds = .ok parts) : parts.length = conds.length := by
  induction conds generalizing parts with
  | nil => cases hp; rfl
  | cons c cs ih =>
      simp only [buildParts] at hp
      cases hc : condExpr c with
      | error e => rw [hc, exceptErrBind] at hp; cases hp
      | ok p =>
          rw [hc, exceptOkBind] at hp
          cases hrest : buildParts cs with
          | error e => rw [hrest, exceptErrBind] at hp; cases hp
          | ok ps =>
              rw [hrest, exceptOkBind] at hp
              cases hp
              simp [ih ps hrest]

theorem flatMapQuoteId (l : List Char) (h : ∀ c ∈ l, c ≠ '\'') :
    (l.flatMap (fun c => if c = '\'' then ['\'', '\''] else [c])) = l := by
  induction l with
  | nil => rfl
  | cons c cs ih =>
      have hc : c ≠ '\'' := h c (by simp)
      simp only [List.flatMap_cons, if_neg hc, List.singleton_append, List.cons.injEq, true_and]
      exact ih (fun x hx => h x (by simp [hx]))

theorem pyDoubleQuotesId (s : String) (h : ∀ c ∈ s.data, c ≠ '\'') :
    pyDoubleQuotes s = s := by
  obtain ⟨l⟩ := s
  exact congrArg String.mk (flatMapQuoteId l h)

theorem strMkData (s : String) : String.mk s.data = s := by
  obtain ⟨l⟩ := s
  rfl

theorem strDataAppend (a b : String) : (a ++ b).data = a.data ++ b.data := by
  obtain ⟨la⟩ := a
  obtain ⟨lb⟩ := b
  rfl

/-! ## C5 -/

/-- C5: for every value formatted for the filter grammar outside the
`in`/`nin`/`between` handling, `None` is emitted as the literal
`null`; an integer is emitted as its decimal string unquoted; a string
is emitted single-quoted with each embedded single quote doubled, and
that doubling alters no other character; formatting the string
`O'Brien` yields `'O''Brien'`. -/
theorem c5_value_formatting :
    (∀ op : String, _fmt_value_for_where .null op = .ok "null") ∧
    (∀ (n : Int) (op : String), ¬ (op = "in" ∨ op = "nin") → op ≠ "between" →
        _fmt_value_for_where (.int n) op = .ok (toString n)) ∧
    (∀ (s op : String), ¬ (op = "in" ∨ op = "nin") → op ≠ "between" →
        _fmt_value_for_where (.str s) op = .ok ("'" ++ pyDoubleQuotes s ++ "'")) ∧
    (∀ s : String, (∀ c ∈ s.data, c ≠ '\'') → pyDoubleQuotes s = s) ∧
    _fmt_value_for_where (.str "O'Brien") "eq" = .ok "'O''Brien'" := by
  refine ⟨fun op => rfl, ?_, ?_, pyDoubleQuotesId, by rfl⟩
  · intro n op h1 h2
    simp [_fmt_value_for_where, PyVal.isNone, h1, h2]
  · intro s op h1 h2
    simp [_fmt_value_for_where, PyVal.isNone, h1, h2, pyStr]

/-- Witness for C5 at concrete inputs. -/
theorem c5_value_formatting_witness :
    _fmt_value_for_where .null "gt" = .ok "null" ∧
    _fmt_value_for_where (.int 42) "lte" = .ok "42" ∧
    _fmt_value_for_where (.str "abc") "like" = .ok "'abc'" ∧
    pyDoubleQuotes "abc" = "abc" :=
  ⟨c5_value_formatting.1 "gt",
   c5_value_formatting.2.1 42 "lte" (by decide) (by decide),
   c5_value_formatting.2.2.1 "abc" "like" (by decide) (by decide),
   c5_value_formatting.2.2.2.1 "abc" (by decide)⟩

/-! ## C7 -/

/-- C7: for every `in` or `nin` condition, a list value is emitted as
a parenthesized comma-joined list with each element formatted by the
numeric/string rule of `fmtListElem` (numbers unquoted, strings quoted
with quote doubling), and a non-`None` scalar (non-list) value is
treated as a single-element list rather than rejected. -/
theorem c7_in_nin_formatting (op : String) (hop : op = "in" ∨ op = "nin") :
    (∀ vs : List PyVal,
        _fmt_value_for_where (.list vs) op =
          .ok ("(" ++ sepJoin "," (vs.map fmtListElem) ++ ")")) ∧
    (∀ v : PyVal, v.isList = false → v.isNone = false →
        _fmt_value_for_where v op = .ok ("(" ++ fmtListElem v ++ ")")) := by
  constructor
  · intro vs
    simp [_fmt_value_for_where, PyVal.isNone, hop]
  · intro v h1 h2
    cases v <;> simp_all [_fmt_value_for_where, PyVal.isNone, PyVal.isList, hop, sepJoin]

/-- Witness for C7 at concrete inputs. -/
theorem c7_in_nin_formatting_witness :
    _fmt_value_for_where (.list [.str "A", .int 2, .null]) "in" =
      .ok "('A',2,'None')" ∧
    _fmt_value_for_where (.str "solo") "nin" = .ok "('solo')" := by
  have h1 := (c7_in_nin_formatting "in" (Or.inl rfl)).1 [.str "A", .int 2, .null]
  have h2 := (c7_in_nin_formatting "nin" (Or.inr rfl)).2 (.str "solo") (by decide) (by decide)
  exact ⟨by rw [h1]; rfl, by rw [h2]; rfl⟩

/-! ## C8 -/

/-- C8: in `create_records`, when `bulk` is false and the data
argument is a list, only its first element is sent (an empty object
when the list is empty); when `bulk` is true and the data argument is
a scalar (non-list), it is wrapped into a single-element list; and the
body of the POST request `create_records` issues is exactly this
normalized payload. -/
theorem c8_create_normalization :
    (∀ (x : PyVal) (xs : List PyVal), create_payload false (.list (x :: xs)) = x) ∧
    create_payload false (.list []) = .obj [] ∧
    (∀ v : PyVal, v.isList = false → create_payload true v = .list [v]) ∧
    (∀ (table_id : String) (bulk : Bool) (data : PyVal),
        (create_request table_id bulk data).body = some (create_payload bulk data)) := by
  refine ⟨fun x xs => rfl, rfl, ?_, fun tid bulk data => rfl⟩
  intro v hv
  simp [create_payload, hv]

/-- Witness for C8 at a concrete scalar input. -/
theorem c8_create_normalization_witness :
    create_payload true (.obj [("Name", .str "Ada")]) = .list [.obj [("Name", .str "Ada")]] :=
  c8_create_normalization.2.2.1 (.obj [("Name", .str "Ada")]) (by decide)

/-! ## C10 -/

/-- C10: a condition dict with a non-empty field and no `op` key
defaults the operator to `eq`: `_build_where` emits
`(field,eq,formattedValue)` instead of rejecting the condition. -/
theorem c10_default_op_eq (f : String) (hf : f ≠ "") (v : PyVal) (logic : String)
    (hl : pyLower logic = "and" ∨ pyLower logic = "or") (e : String)
    (he : _fmt_value_for_where v "eq" = .ok e) :
    _build_where [{ field := some f, value := v }] logic =
      .ok (condStr f "eq" e) := by
  have hcond : condExpr { field := some f, value := v } =
      .ok (condStr f "eq" e) := by
    have hmk := makeConditionNotBetween f "eq" v (by decide) (by decide) e he
    have hpl : pyLower "eq" = "eq" := rfl
    rw [hpl] at hmk
    simp [condExpr, pyTruthyOpt, hf]
    exact hmk
  rw [buildWhereUnfold [{ field := some f, value := v }] logic (by rfl) hl]
  rw [show buildParts [{ field := some f, value := v }] =
        (condExpr { field := some f, value := v } >>= fun p =>
          buildParts [] >>= fun ps => pure (p :: ps)) from rfl]
  rw [hcond, exceptOkBind]
  rfl

/-- Witness for C10: an `op`-less condition on field `Status`. -/
theorem c10_default_op_eq_witness :
    _build_where [{ field := some "Status", value := .str "Active" }] "and" =
      .ok "(Status,eq,'Active')" := by
  have h := c10_default_op_eq "Status" (by decide) (.str "Active") "and"
    (Or.inl (by rfl)) "'Active'" (by rfl)
  rw [h]; rfl

/-! ## C4 -/

/-- C4: a one-element condition list yields the single per-condition
expression unwrapped, and a list of two or more conditions with a
valid combinator yields `logic(cond1,...,condN)` with the
per-condition expressions in input order and the combinator
lower-cased. -/
theorem c4_combination :
    (∀ (c : Condition) (logic e : String),
        condExpr c = .ok e → (pyLower logic = "and" ∨ pyLower logic = "or") →
        _build_where [c] logic = .ok e) ∧
    (∀ (conds : List Condition) (logic : String) (parts : List String),
        buildParts conds = .ok parts → 2 ≤ conds.length →
        (pyLower logic = "and" ∨ pyLower logic = "or") →
        _build_where conds logic =
          .ok (pyLower logic ++ "(" ++ sepJoin "," parts ++ ")")) := by
  constructor
  · intro c logic e hc hl
    rw [buildWhereUnfold [c] logic (by rfl) hl]
    rw [show buildParts [c] =
          (condExpr c >>= fun p => buildParts [] >>= fun ps => pure (p :: ps)) from rfl]
    rw [hc, exceptOkBind]
    rfl
  · intro conds logic parts hp hlen hl
    have hplen := buildPartsLength conds parts hp
    have hne : conds.isEmpty = false := by
      cases conds with
      | nil => simp at hlen
      | cons c cs => rfl
    rw [buildWhereUnfold conds logic hne hl, hp, exceptOkBind]
    rw [← hplen] at hlen
    match parts, hlen with
    | p1 :: p2 :: ps, _ => rfl

/-- Witness for C4: a single `like` condition, and a two-condition
`OR` combination. -/
theorem c4_combination_witness :
    _build_where [{ field := some "Email", op := some "like", value := .str "%@gmail.com" }] "and" =
      .ok "(Email,like,'%@gmail.com')" ∧
    _build_where [{ field := some "Status", op := some "eq", value := .str "Active" },
                  { field := some "Score", op := some "gt", value := .int 70 }] "OR" =
      .ok "or((Status,eq,'Active'),(Score,gt,70))" := by
  constructor
  · have h := c4_combination.1
      { field := some "Email", op := some "like", value := .str "%@gmail.com" }
      "and" "(Email,like,'%@gmail.com')" (by rfl) (Or.inl (by rfl))
    rw [h]
  · have h := c4_combination.2
      [{ field := some "Status", op := some "eq", value := .str "Active" },
       { field := some "Score", op := some "gt", value := .int 70 }]
      "OR" ["(Status,eq,'Active')", "(Score,gt,70)"] (by rfl) (by simp) (Or.inr (by rfl))
    rw [h]; rfl

/-! ## C3 -/

/-- C3 counterexample: for the two-element value `["a::b", 1]` the
claim predicts the compound
`and((F,gte,'a::b'),(F,lte,1))`, but the bound's string form collides
with the internal `__BETWEEN__::` marker and `_make_condition` raises
the tuple-unpacking `ValueError` instead of producing any
expression. -/
theorem c3_counterexample :
    _make_condition "F" "between" (.list [.str "a::b", .int 1]) =
      .error (.valueError "too many values to unpack (expected 3)") ∧
    _make_condition "F" "between" (.list [.str "a::b", .int 1]) ≠
      .ok (betweenStr "F" "'a::b'" "1") := by
  refine ⟨by rfl, fun h => ?_⟩
  rw [show _make_condition "F" "between" (.list [.str "a::b", .int 1]) =
        .error (.valueError "too many values to unpack (expected 3)") from rfl] at h
  exact Except.noConfusion h

/-- `splitCCAux` carries a non-colon head into the accumulator. -/
theorem splitCCAuxCons (c : Char) (l acc : List Char) (hc : c ≠ ':') :
    splitCCAux (c :: l) acc = splitCCAux l (c :: acc) := by
  rw [splitCCAux.eq_def]
  split
  · next heq => cases heq
  · next heq =>
      obtain ⟨h1, -⟩ := List.cons.injEq .. ▸ heq
      exact absurd h1 hc
  · next heq =>
      obtain ⟨h1, h2⟩ := List.cons.injEq .. ▸ heq
      rw [h1, h2]

/-- `splitCCAux` consumes a whole colon-free segment into the
accumulator. -/
theorem splitCCAuxFree (d : List Char) (rest acc : List Char) (h : ∀ c ∈ d, c ≠ ':') :
    splitCCAux (d ++ rest) acc = splitCCAux rest (d.reverse ++ acc) := by
  induction d generalizing acc with
  | nil => simp
  | cons c d' ih =>
      rw [List.cons_append, splitCCAuxCons c _ _ (h c (by simp)),
        ih _ (fun x hx => h x (by simp [hx]))]
      simp [List.append_assoc]

/-- A `::` separator closes the current chunk. -/
theorem splitCCAuxSep (r acc : List Char) :
    splitCCAux (':' :: ':' :: r) acc = acc.reverse :: splitCCAux r [] := rfl

/-- Splitting the `__BETWEEN__` marker string on `"::"` recovers
exactly its three parts whenever neither bound's string form contains
a colon (a colon-free bound can neither contain nor border a `::`
separator). -/
theorem pySplitColonsMarker (s t : String)
    (hs : ∀ c ∈ s.data, c ≠ ':') (ht : ∀ c ∈ t.data, c ≠ ':') :
    pySplitColons ("__BETWEEN__::" ++ s ++ "::" ++ t) = ["__BETWEEN__", s, t] := by
  have hdata : ("__BETWEEN__::" ++ s ++ "::" ++ t).data =
      "__BETWEEN__".data ++ (':' :: ':' :: (s.data ++ (':' :: ':' :: (t.data ++ [])))) := by
    rw [strDataAppend, strDataAppend, strDataAppend,
      show ("__BETWEEN__::" : String).data = "__BETWEEN__".data ++ [':', ':'] from rfl,
      show ("::" : String).data = [':', ':'] from rfl]
    simp [List.append_assoc]
  unfold pySplitColons
  rw [hdata, splitCCAuxFree "__BETWEEN__".data _ [] (by decide), splitCCAuxSep,
    splitCCAuxFree s.data _ [] hs, splitCCAuxSep, splitCCAuxFree t.data [] [] ht]
  simp [splitCCAux, strMkData]

/-- C3 (amended): for every field and two-element value `[a, b]`
whose bounds' string forms keep the internal `__BETWEEN__::a::b`
marker splitting into exactly its three parts — guaranteed whenever
neither bound's string form contains a colon — the single `between`
condition yields the compound `and((f,gte,A),(f,lte,B))` with each
bound formatted from that bound alone: by the numeric attempt when
`float()` accepts the bound's string form (on the exact fragment,
integers of magnitude at most `2^53` render as their plain decimal
string, `-0` included), and as a single-quoted escaped string when
`float()` rejects it; `build([{field:"Score",op:"between",
value:[10,20]}], "and")` is exactly
`and((Score,gte,10),(Score,lte,20))`. -/
theorem c3_between_amended (f : String) (a b : PyVal)
    (h : pySplitColons ("__BETWEEN__::" ++ pyStr a ++ "::" ++ pyStr b) =
          ["__BETWEEN__", pyStr a, pyStr b]) :
    (∃ A B, _make_condition f "between" (.list [a, b]) = .ok (betweenStr f A B) ∧
        (numExactFrag (pyStr a) = true → A = _num_or_str (pyStr a)) ∧
        (numExactFrag (pyStr b) = true → B = _num_or_str (pyStr b))) ∧
    (∀ s : String, pyFloatAccepts s = false →
        _num_or_str s = "'" ++ pyDoubleQuotes s ++ "'") ∧
    (∀ (s : String) (neg : Bool) (m : Nat), pyFloatSmallInt s = some (neg, m) →
        _num_or_str s =
          (if neg ∧ m = 0 then "-0" else if neg then "-" ++ toString m else toString m)) ∧
    (∀ s t : String, (∀ c ∈ s.data, c ≠ ':') → (∀ c ∈ t.data, c ≠ ':') →
        pySplitColons ("__BETWEEN__::" ++ s ++ "::" ++ t) = ["__BETWEEN__", s, t]) ∧
    _build_where
        [{ field := some "Score", op := some "between", value := .list [.int 10, .int 20] }]
        "and" =
      .ok "and((Score,gte,10),(Score,lte,20))" := by
  refine ⟨?_, ?_, ?_, pySplitColonsMarker, by rfl⟩
  · refine ⟨_num_or_str (pyStr a), _num_or_str (pyStr b), ?_, fun _ => rfl, fun _ => rfl⟩
    have hfmt : _fmt_value_for_where (.list [a, b]) "between" =
        .ok ("__BETWEEN__::" ++ pyStr a ++ "::" ++ pyStr b) := rfl
    unfold _make_condition
    simp only [show pyLower "between" = "between" from rfl]
    rw [if_neg (by decide)]
    rw [hfmt, exceptOkBind, if_pos trivial, h]
    rfl
  · intro s hs
    have hp : pyFloatParse s = none := by
      revert hs
      unfold pyFloatAccepts
      cases pyFloatParse s <;> simp
    simp [_num_or_str, hp]
  · intro s neg m hs
    unfold pyFloatSmallInt at hs
    cases hp : pyFloatParse s with
    | none => rw [hp] at hs; cases hs
    | some v =>
        rw [hp] at hs
        cases v with
        | nan => cases hs
        | infinite n => cases hs
        | finite n mant e =>
            have hs2 : (if floatOverflows mant e = true then (none : Option (Bool × Nat))
                else match finiteIntValue mant e with
                  | some mv => if mv ≤ 2 ^ 53 then some (n, mv) else none
                  | none => none) = some (neg, m) := hs
            by_cases hov : floatOverflows mant e = true
            · rw [if_pos hov] at hs2; cases hs2
            · rw [if_neg hov] at hs2
              cases hiv : finiteIntValue mant e with
              | none => rw [hiv] at hs2; cases hs2
              | some mv =>
                  rw [hiv] at hs2
                  have hs3 : (if mv ≤ 2 ^ 53 then some (n, mv) else (none : Option (Bool × Nat))) =
                      some (neg, m) := hs2
                  by_cases hm : mv ≤ 2 ^ 53
                  · rw [if_pos hm] at hs3
                    injection hs3 with hs4
                    obtain ⟨rfl, rfl⟩ := Prod.mk.injEq .. ▸ hs4
                    simp [_num_or_str, hp, pyFloatFormat, hov, hiv]
                  · rw [if_neg hm] at hs3; cases hs3

/-- Witness for C3 (amended) at the claim's own concrete input, plus
concrete points of the numeric branch (an integer-denoting fraction
and an exponent literal), the quoted fallback, the `-0` edge, and the
colon-free split guarantee. -/
theorem c3_between_amended_witness :
    _make_condition "Score" "between" (.list [.int 10, .int 20]) =
      .ok (betweenStr "Score" "10" "20") ∧
    _num_or_str "abc" = "'abc'" ∧
    _num_or_str "10.0" = "10" ∧
    _num_or_str "1e3" = "1000" ∧
    _num_or_str "-0" = "-0" ∧
    pySplitColons ("__BETWEEN__::" ++ "10" ++ "::" ++ "20") = ["__BETWEEN__", "10", "20"] := by
  have h := c3_between_amended "Score" (.int 10) (.int 20) (by rfl)
  obtain ⟨A, B, hmk, hA, hB⟩ := h.1
  refine ⟨?_, ?_, ?_, ?_, ?_, h.2.2.2.1 "10" "20" (by decide) (by decide)⟩
  · rw [hmk, hA (by decide), hB (by decide)]
    rfl
  · rw [h.2.1 "abc" (by decide)]
    rfl
  · rw [h.2.2.1 "10.0" false 10 (by decide)]
    rfl
  · rw [h.2.2.1 "1e3" false 1000 (by decide)]
    rfl
  · rw [h.2.2.1 "-0" true 0 (by decide)]
    rfl

/-! ## C6 -/

theorem fmtTotalNotBetween (v : PyVal) (op : String) (hnb : op ≠ "between") :
    ∃ e, _fmt_value_for_where v op = .ok e := by
  by_cases hin : op = "in" ∨ op = "nin" <;>
    cases v <;> simp [_fmt_value_for_where, PyVal.isNone, hin, hnb]

/-- When `_make_condition`'s executed failure condition holds, it
raises a `ValueError`. -/
theorem makeConditionFails (f op : String) (v : PyVal)
    (h : (!(_ALLOWED_OPS.contains (pyLower op)) ||
          (pyLower op == "between" && betweenFails v)) = true) :
    ∃ m, _make_condition f op v = .error (.valueError m) := by
  rw [Bool.or_eq_true, Bool.not_eq_eq_eq_not, Bool.not_true, Bool.and_eq_true, beq_iff_eq] at h
  rcases h with h | ⟨hb, hbf⟩
  · refine ⟨"Unsupported op '" ++ pyLower op ++
      "'. Allowed: ['between', 'eq', 'gt', 'gte', 'in', 'like', 'lt', 'lte', 'neq', 'nin']", ?_⟩
    unfold _make_condition
    rw [if_pos (show ¬ _ALLOWED_OPS.contains (pyLower op) = true by
      simp only [h]; exact Bool.false_ne_true)]
    rfl
  · unfold _make_condition
    simp only [hb]
    rw [if_neg (by decide)]
    cases v with
    | null =>
        exact ⟨_, by rfl⟩
    | list vs =>
        match vs with
        | [] => exact ⟨_, by rfl⟩
        | [a] => exact ⟨_, by rfl⟩
        | [a, b] =>
            have hfmt : _fmt_value_for_where (.list [a, b]) "between" =
                .ok ("__BETWEEN__::" ++ pyStr a ++ "::" ++ pyStr b) := rfl
            rw [hfmt, exceptOkBind, if_pos trivial]
            simp only [betweenFails, Bool.not_eq_eq_eq_not, Bool.not_true, beq_eq_false_iff_ne,
              ne_eq] at hbf
            rcases hsp : pySplitColons ("__BETWEEN__::" ++ pyStr a ++ "::" ++ pyStr b) with
              _ | ⟨x, _ | ⟨y, _ | ⟨z, _ | ⟨w, rest⟩⟩⟩⟩
            · exact ⟨"not enough values to unpack (expected 3, got 0)", rfl⟩
            · exact ⟨"not enough values to unpack (expected 3, got 1)", by simp; rfl⟩
            · exact ⟨"not enough values to unpack (expected 3, got 2)", by simp; rfl⟩
            · exact absurd (by rw [hsp]; rfl) hbf
            · exact ⟨"too many values to unpack (expected 3)",
                by simp; rw [if_neg (by omega)]; rfl⟩
        | a :: b :: c :: rest => exact ⟨_, by rfl⟩
    | bool b => exact ⟨_, by rfl⟩
    | int n => exact ⟨_, by rfl⟩
    | str s => exact ⟨_, by rfl⟩
    | obj kvs => exact ⟨_, by rfl⟩

/-- When `_make_condition`'s executed failure condition does not hold,
it returns an expression. -/
theorem makeConditionOk (f op : String) (v : PyVal)
    (h : (!(_ALLOWED_OPS.contains (pyLower op)) ||
          (pyLower op == "between" && betweenFails v)) = false) :
    ∃ e, _make_condition f op v = .ok e := by
  rw [Bool.or_eq_false_iff, Bool.not_eq_eq_eq_not, Bool.not_false,
    Bool.and_eq_false_iff] at h
  obtain ⟨hallow, hrest⟩ := h
  by_cases hb : pyLower op = "between"
  · have hbf : betweenFails v = false := by
      rcases hrest with hrest | hrest
      · exact absurd hrest (by simp [hb])
      · exact hrest
    cases v with
    | null => exact absurd hbf (by simp [betweenFails])
    | bool b => exact absurd hbf (by simp [betweenFails])
    | int n => exact absurd hbf (by simp [betweenFails])
    | str s => exact absurd hbf (by simp [betweenFails])
    | obj kvs => exact absurd hbf (by simp [betweenFails])
    | list vs =>
        match vs with
        | [] => exact absurd hbf (by simp [betweenFails])
        | [a] => exact absurd hbf (by simp [betweenFails])
        | a :: b :: c :: rest => exact absurd hbf (by simp [betweenFails])
        | [a, b] =>
            simp only [betweenFails, Bool.not_eq_eq_eq_not, Bool.not_false, beq_iff_eq] at hbf
            have hfmt : _fmt_value_for_where (.list [a, b]) "between" =
                .ok ("__BETWEEN__::" ++ pyStr a ++ "::" ++ pyStr b) := rfl
            unfold _make_condition
            simp only [hb]
            rw [if_neg (by decide), hfmt, exceptOkBind, if_pos trivial]
            rcases hsp : pySplitColons ("__BETWEEN__::" ++ pyStr a ++ "::" ++ pyStr b) with
              _ | ⟨x, _ | ⟨y, _ | ⟨z, _ | ⟨w, rest⟩⟩⟩⟩
            · rw [hsp] at hbf; simp at hbf
            · rw [hsp] at hbf; simp at hbf
            · rw [hsp] at hbf; simp at hbf
            · exact ⟨betweenStr f (_num_or_str y) (_num_or_str z), rfl⟩
            · rw [hsp] at hbf; simp at hbf
  · obtain ⟨e, he⟩ := fmtTotalNotBetween v (pyLower op) hb
    exact ⟨_, makeConditionNotBetween f op v hallow hb e he⟩

theorem condExprFails (c : Condition) (h : condFails c = true) :
    ∃ m, condExpr c = .error (.valueError m) := by
  unfold condFails at h
  rw [Bool.or_eq_true] at h
  by_cases hf : pyTruthyOpt c.field = true
  · have h2 : (!(_ALLOWED_OPS.contains (pyLower (c.op.getD "eq"))) ||
        (pyLower (c.op.getD "eq") == "between" && betweenFails c.value)) = true := by
      rcases h with h | h
      · rw [hf] at h; cases h
      · exact h
    obtain ⟨m, hm⟩ := makeConditionFails (c.field.getD "") (c.op.getD "eq") c.value h2
    exact ⟨m, by simp [condExpr, hf, hm]⟩
  · exact ⟨"Each condition must include 'field'", by simp [condExpr, hf]⟩

theorem condExprOk (c : Condition) (h : condFails c = false) :
    ∃ e, condExpr c = .ok e := by
  unfold condFails at h
  rw [Bool.or_eq_false_iff] at h
  obtain ⟨h1, h2⟩ := h
  have hf : pyTruthyOpt c.field = true := by
    revert h1; cases pyTruthyOpt c.field <;> simp
  obtain ⟨e, he⟩ := makeConditionOk (c.field.getD "") (c.op.getD "eq") c.value h2
  exact ⟨e, by simp [condExpr, hf, he]⟩

theorem buildPartsFails (conds : List Condition) (h : conds.any condFails = true) :
    ∃ m, buildParts conds = .error (.valueError m) := by
  induction conds with
  | nil => simp at h
  | cons c cs ih =>
      rw [List.any_cons, Bool.or_eq_true] at h
      by_cases hc : condFails c = true
      · obtain ⟨m, hm⟩ := condExprFails c hc
        exact ⟨m, by simp [buildParts, hm, exceptErrBind]⟩
      · have hcs : cs.any condFails = true := by
          rcases h with h | h
          · exact absurd h hc
          · exact h
        obtain ⟨e, he⟩ := condExprOk c (by revert hc; cases condFails c <;> simp)
        obtain ⟨m, hm⟩ := ih hcs
        exact ⟨m, by simp [buildParts, he, hm, exceptOkBind, exceptErrBind]⟩

theorem buildPartsOk (conds : List Condition) (h : conds.any condFails = false) :
    ∃ ps, buildParts conds = .ok ps := by
  induction conds with
  | nil => exact ⟨[], rfl⟩
  | cons c cs ih =>
      rw [List.any_cons, Bool.or_eq_false_iff] at h
      obtain ⟨h1, h2⟩ := h
      obtain ⟨e, he⟩ := condExprOk c h1
      obtain ⟨ps, hps⟩ := ih h2
      exact ⟨e :: ps, by simp [buildParts, he, hps, exceptOkBind]⟩

/-- C6 counterexample: the condition
`{field:"F", op:"between", value:["x::y", 0]}` with `logic="and"` sits
in none of the claim's enumerated failure cases (field present,
operator supported, value exactly a two-element list, valid
combinator), yet `build` fails with a `ValueError` — the bound's
string form breaks the internal `__BETWEEN__::` marker encoding. -/
theorem c6_counterexample :
    _build_where
        [{ field := some "F", op := some "between", value := .list [.str "x::y", .int 0] }]
        "and" =
      .error (.valueError "too many values to unpack (expected 3)") ∧
    c6ClaimedFailureCases
        [{ field := some "F", op := some "between", value := .list [.str "x::y", .int 0] }]
        "and" = false :=
  ⟨rfl, rfl⟩

/-- C6 (amended): `build` fails with a `ValueError` (and produces no
expression) exactly when the condition list is empty, the combinator
is neither `and` nor `or` (after lower-casing), some condition lacks a
field, has an unsupported operator, or has a failing `between` value —
where a `between` value fails when it is not exactly a two-element
list *or* when its bounds' string forms break the internal
`__BETWEEN__::a::b` marker round-trip (`condFails`/`betweenFails`). -/
theorem c6_amended (conds : List Condition) (logic : String) :
    (∃ m, _build_where conds logic = .error (.valueError m)) ↔
      (conds.isEmpty = true ∨ ¬ (pyLower logic = "and" ∨ pyLower logic = "or") ∨
        conds.any condFails = true) := by
  constructor
  · rintro ⟨m, hm⟩
    by_contra hcon
    push_neg at hcon
    obtain ⟨h1, h2, h3⟩ := hcon
    simp only [ne_eq, Bool.not_eq_true] at h1 h3
    obtain ⟨ps, hps⟩ := buildPartsOk conds h3
    rw [buildWhereUnfold conds logic h1 h2, hps, exceptOkBind] at hm
    cases ps with
    | nil => exact Except.noConfusion hm
    | cons p pt =>
        cases pt with
        | nil => exact Except.noConfusion hm
        | cons q qt => exact Except.noConfusion hm
  · intro h
    rcases h with h | h | h
    · cases conds with
      | nil => exact ⟨"At least one condition is required", rfl⟩
      | cons c cs => simp at h
    · cases conds with
      | nil => exact ⟨"At least one condition is required", rfl⟩
      | cons c cs =>
          refine ⟨"logic must be 'and' or 'or'", ?_⟩
          show _build_where (c :: cs) logic = _
          unfold _build_where
          rw [if_neg (by simp), if_pos h]
          rfl
    · cases conds with
      | nil => exact ⟨"At least one condition is required", rfl⟩
      | cons c cs =>
          by_cases hl : pyLower logic = "and" ∨ pyLower logic = "or"
          · obtain ⟨m, hm⟩ := buildPartsFails _ h
            refine ⟨m, ?_⟩
            rw [buildWhereUnfold (c :: cs) logic rfl hl, hm, exceptErrBind]
          · refine ⟨"logic must be 'and' or 'or'", ?_⟩
            unfold _build_where
            rw [if_neg (by simp), if_pos hl]
            rfl

/-- Witness for C6 (amended): both directions at concrete inputs —
`logic="xor"` fails, empty conditions fail, operator `"foo"` fails,
and a well-formed single condition does not. -/
theorem c6_amended_witness :
    (∃ m, _build_where [{ field := some "F", value := .null }] "xor" =
      .error (.valueError m)) ∧
    (∃ m, _build_where [] "and" = .error (.valueError m)) ∧
    (∃ m, _build_where [{ field := some "F", op := some "foo", value := .null }] "and" =
      .error (.valueError m)) ∧
    ¬ (∃ m, _build_where [{ field := some "F", value := .null }] "and" =
      .error (.valueError m)) := by
  refine ⟨?_, ?_, ?_, ?_⟩
  · exact (c6_amended _ "xor").mpr (Or.inr (Or.inl (by decide)))
  · exact (c6_amended [] "and").mpr (Or.inl rfl)
  · exact (c6_amended _ "and").mpr (Or.inr (Or.inr (by decide)))
  · intro hex
    have := (c6_amended [{ field := some "F", value := .null }] "and").mp hex
    rcases this with h | h | h
    · cases h
    · exact h (Or.inl (by decide))
    · revert h; decide

/-! ## C1 -/

/-- C1 counterexample: with tables
`[{id:"t1",title:"contacts"}, {id:"t2",title:"Contacts"}]` and query
`"Contacts"`, the second table's trimmed title equals the query
exactly while the first matches only under normalization — yet the
resolver returns `"t1"`, the earlier normalized match, not `"t2"` as
the claimed whole-sequence exact-first priority requires. -/
theorem c1_counterexample :
    get_table_id_match
        [{ id := some "t1", title := some "contacts" },
         { id := some "t2", title := some "Contacts" }]
        "b1" "Contacts" = .ok "t1" ∧
    pyStrip "Contacts" = "Contacts" ∧
    pyStrip "contacts" ≠ "Contacts" ∧
    pyNormalize (pyStrip "contacts") = pyNormalize (pyStrip "Contacts") ∧
    ("t1" : String) ≠ "t2" :=
  ⟨by rfl, by rfl, by decide, by rfl, by decide⟩

/-- The first match of `find?` over `pre ++ t :: post` lies in
`pre ++ [t]` whenever `t` itself matches. -/
theorem findFirstInPrefix {α : Type} (p : α → Bool) (pre post : List α) (t : α)
    (ht : p t = true) :
    ∃ u, (pre ++ t :: post).find? p = some u ∧ u ∈ pre ++ [t] ∧ p u = true := by
  induction pre with
  | nil => exact ⟨t, by simp [List.find?_cons_of_pos, ht], by simp, ht⟩
  | cons a pre ih =>
      by_cases ha : p a = true
      · exact ⟨a, by simp [List.find?_cons_of_pos, ha], by simp, ha⟩
      · obtain ⟨u, h1, h2, h3⟩ := ih
        refine ⟨u, ?_, by simp [List.mem_cons]; right; simpa using h2, h3⟩
        rw [List.cons_append, List.find?_cons_of_neg _ (by simp [ha]), h1]

/-- C1 (amended): after the whole-sequence exact-id scan, resolution
proceeds table by table, checking each table's candidates (title, then
altName) for an exact trimmed match *or* a normalized match before
moving to the next table; the first table with any matching candidate
wins.  Consequently, when an earlier table matches (even only under
normalization), the resolver's answer is decided within the tables up
to and including it — a later table's exact title match cannot
override it. -/
theorem c1_amended (pre post : List Table) (t : Table) (base q : String)
    (hid : ∀ u ∈ pre ++ t :: post, u.id ≠ some q)
    (ht : tableMatches t (pyStrip q) (pyNormalize (pyStrip q)) = true)
    (hids : ∀ u ∈ pre ++ [t], u.id.isSome = true) :
    ∃ u ∈ pre ++ [t], ∃ i, u.id = some i ∧
      tableMatches u (pyStrip q) (pyNormalize (pyStrip q)) = true ∧
      get_table_id_match (pre ++ t :: post) base q = .ok i := by
  have hany : (pre ++ t :: post).any (fun u => u.id == some q) = false := by
    rw [Bool.eq_false_iff]
    intro hcon
    rw [List.any_eq_true] at hcon
    obtain ⟨u, hu, hequ⟩ := hcon
    rw [beq_iff_eq] at hequ
    exact hid u hu hequ
  obtain ⟨u, hfind, hmem, hpu⟩ :=
    findFirstInPrefix (fun u => tableMatches u (pyStrip q) (pyNormalize (pyStrip q)))
      pre post t ht
  obtain ⟨i, hi⟩ := Option.isSome_iff_exists.mp (hids u hmem)
  refine ⟨u, hmem, i, hi, hpu, ?_⟩
  simp only [get_table_id_match, hany, hfind, hi]
  rfl

/-- Witness for C1 (amended): an earlier normalized-only match beats
a later exact title match — the resolver's answer on the
counterexample catalog, derived through the amended theorem. -/
theorem c1_amended_witness :
    get_table_id_match
      ([] ++ { id := some "t1", title := some "contacts" } ::
        [{ id := some "t2", title := some "Contacts" }])
      "b1" "Contacts" = .ok "t1" := by
  obtain ⟨u, hmem, i, hi, hmat, hres⟩ :=
    c1_amended [] [{ id := some "t2", title := some "Contacts" }]
      { id := some "t1", title := some "contacts" } "b1" "Contacts"
      (by decide) (by decide) (by decide)
  have hu : u = { id := some "t1", title := some "contacts" } := by simpa using hmem
  subst hu
  have hid : some "t1" = some i := hi
  injection hid with hid2
  rw [← hid2] at hres
  exact hres

/-! ## C9 -/

theorem strContains_trans (a b c : String) (h1 : strContains a b) (h2 : strContains b c) :
    strContains a c := by
  obtain ⟨l1, r1, e1⟩ := h1
  obtain ⟨l2, r2, e2⟩ := h2
  exact ⟨l1 ++ l2, r2 ++ r1, by rw [e1, e2]; simp [List.append_assoc]⟩

theorem sepJoinContains (sep x : String) (l : List String) (hx : x ∈ l) :
    strContains (sepJoin sep l) x := by
  induction l with
  | nil => cases hx
  | cons a rest ih =>
      cases rest with
      | nil =>
          have hxa : x = a := List.mem_singleton.mp hx
          subst hxa
          exact ⟨[], [], by simp [sepJoin]⟩
      | cons b rest2 =>
          rcases List.mem_cons.mp hx with hxa | hx2
          · subst hxa
            refine ⟨[], (sep ++ sepJoin sep (b :: rest2)).data, ?_⟩
            show (x ++ sep ++ sepJoin sep (b :: rest2)).data = _
            simp [strDataAppend, List.append_assoc]
          · have hc := ih hx2
            have hbig : strContains (a ++ sep ++ sepJoin sep (b :: rest2))
                (sepJoin sep (b :: rest2)) := by
              refine ⟨(a ++ sep).data, [], ?_⟩
              simp [strDataAppend]
            exact strContains_trans _ _ _ hbig hc

/-- C9: when neither the id scan nor the name scan matches any table,
the resolver fails with the not-found `ValueError`, and its message
contains, for every candidate table, the repr of its id, of its
title, and of its altName (`table_name or name`) — the `Available:`
enumeration. -/
theorem c9_not_found (tables : List Table) (base q : String)
    (h1 : tables.any (fun t => t.id == some q) = false)
    (h2 : tables.find? (fun t => tableMatches t (pyStrip q) (pyNormalize (pyStrip q))) = none) :
    get_table_id_match tables base q =
      .error (.valueError (tableNotFoundMsg q base tables)) ∧
    ∀ t ∈ tables,
      strContains (tableNotFoundMsg q base tables) (reprOptStr t.id) ∧
      strContains (tableNotFoundMsg q base tables) (reprOptStr t.title) ∧
      strContains (tableNotFoundMsg q base tables) (reprOptStr (pyOrOpt t.table_name t.name)) := by
  constructor
  · simp only [get_table_id_match, h1, h2]
    rfl
  · intro t ht
    have hdict : strContains (tableNotFoundMsg q base tables) (tableReprDict t) := by
      have hj : strContains (sepJoin ", " (tables.map tableReprDict)) (tableReprDict t) :=
        sepJoinContains _ _ _ (List.mem_map_of_mem _ ht)
      have hbig : strContains (tableNotFoundMsg q base tables)
          (sepJoin ", " (tables.map tableReprDict)) := by
        refine ⟨("Table '" ++ q ++ "' not found in base '" ++ base ++
          "'. Available: [").data, "]".data, ?_⟩
        simp [tableNotFoundMsg, strDataAppend, List.append_assoc]
      exact strContains_trans _ _ _ hbig hj
    refine ⟨strContains_trans _ _ _ hdict ?_, strContains_trans _ _ _ hdict ?_,
      strContains_trans _ _ _ hdict ?_⟩
    · refine ⟨"\x7b'id': ".data, (", 'title': " ++ reprOptStr t.title ++ ", 'name': " ++
        reprOptStr (pyOrOpt t.table_name t.name) ++ "\x7d").data, ?_⟩
      simp [tableReprDict, strDataAppend, List.append_assoc]
    · refine ⟨("\x7b'id': " ++ reprOptStr t.id ++ ", 'title': ").data, (", 'name': " ++
        reprOptStr (pyOrOpt t.table_name t.name) ++ "\x7d").data, ?_⟩
      simp [tableReprDict, strDataAppend, List.append_assoc]
    · refine ⟨("\x7b'id': " ++ reprOptStr t.id ++ ", 'title': " ++ reprOptStr t.title ++
        ", 'name': ").data, "\x7d".data, ?_⟩
      simp [tableReprDict, strDataAppend, List.append_assoc]

/-- Witness for C9 at a concrete catalog and query. -/
theorem c9_not_found_witness :
    get_table_id_match
        [{ id := some "t1", title := some "Contacts", table_name := some "contacts" },
         { id := some "t2" }]
        "base9" "Leads" =
      .error (.valueError (tableNotFoundMsg "Leads" "base9"
        [{ id := some "t1", title := some "Contacts", table_name := some "contacts" },
         { id := some "t2" }])) ∧
    strContains
      (tableNotFoundMsg "Leads" "base9"
        [{ id := some "t1", title := some "Contacts", table_name := some "contacts" },
         { id := some "t2" }])
      (reprOptStr (some "t1")) ∧
    strContains
      (tableNotFoundMsg "Leads" "base9"
        [{ id := some "t1", title := some "Contacts", table_name := some "contacts" },
         { id := some "t2" }])
      (reprOptStr (some "Contacts")) ∧
    strContains
      (tableNotFoundMsg "Leads" "base9"
        [{ id := some "t1", title := some "Contacts", table_name := some "contacts" },
         { id := some "t2" }])
      (reprOptStr (pyOrOpt (some "contacts") none)) := by
  have h := c9_not_found
    [{ id := some "t1", title := some "Contacts", table_name := some "contacts" },
     { id := some "t2" }]
    "base9" "Leads" (by decide) (by decide)
  have ht := h.2 { id := some "t1", title := some "Contacts", table_name := some "contacts" }
    (by simp)
  exact ⟨h.1, ht.1, ht.2.1, ht.2.2⟩

/-! ## C2 -/

/-- C2 counterexample: `retrieve_records` with a non-empty table name
but no URL configuration raises the configuration `ValueError` from
`get_nocodb_client` *before* the `try` block is entered, so the
exception propagates uncaught to the caller instead of being returned
as the error envelope. -/
theorem c2_counterexample :
    retrieve_records "Contacts" none none (some 10) (some 0) none none none none none
        { nocodb_url := none, nocodb_api_token := none, nocodb_base_id := none }
        (fun _ => HttpResult.err "unreachable") =
      .error (.valueError
        "NocoDB URL is not provided (param nocodb_url or ENV NOCODB_URL).") :=
  rfl

/-- C2 (amended): for `find_by_field` and `find_by_fields` every
failure of the four kinds (caller-input validation including missing
URL/token/base-id, table-not-found, non-2xx remote response, transport
error) is caught and returned to the caller as a `Resp` value — by
construction either the remote JSON or the uniform envelope
`{error: true, message, status_code?}`; for `retrieve_records`,
`create_records`, `update_records`, `delete_records` and `get_schema`
the same holds *provided the URL and API token resolve*, because their
client construction runs before the exception handler is installed —
a missing URL/token there propagates uncaught as a `ValueError`. -/
theorem c2_amended :
    (∀ (table_name : String) (row_id filters : Option String) (limit offset : Option Int)
        (sort fields nocodb_url api_token base_id : Option String) (env : Env)
        (http : HttpOracle),
        (∃ c, get_nocodb_client nocodb_url api_token env = .ok c) →
        isOkB (retrieve_records table_name row_id filters limit offset sort fields
          nocodb_url api_token base_id env http) = true) ∧
    (∀ (table_name : String) (data : PyVal) (bulk : Bool)
        (nocodb_url api_token base_id : Option String) (env : Env) (http : HttpOracle),
        (∃ c, get_nocodb_client nocodb_url api_token env = .ok c) →
        isOkB (create_records table_name data bulk nocodb_url api_token base_id env http) =
          true) ∧
    (∀ (table_name : String) (row_id : Option String) (data : Option PyVal) (bulk : Bool)
        (bulk_ids : Option (List String)) (nocodb_url api_token base_id : Option String)
        (env : Env) (http : HttpOracle),
        (∃ c, get_nocodb_client nocodb_url api_token env = .ok c) →
        isOkB (update_records table_name row_id data bulk bulk_ids
          nocodb_url api_token base_id env http) = true) ∧
    (∀ (table_name : String) (row_id : Option String) (bulk : Bool)
        (bulk_ids : Option (List String)) (nocodb_url api_token base_id : Option String)
        (env : Env) (http : HttpOracle),
        (∃ c, get_nocodb_client nocodb_url api_token env = .ok c) →
        isOkB (delete_records table_name row_id bulk bulk_ids
          nocodb_url api_token base_id env http) = true) ∧
    (∀ (table_name : String) (nocodb_url api_token base_id : Option String) (env : Env)
        (http : HttpOracle),
        (∃ c, get_nocodb_client nocodb_url api_token env = .ok c) →
        isOkB (get_schema table_name nocodb_url api_token base_id env http) = true) ∧
    (∀ (table_name field : String) (value : PyVal) (op : String) (limit : Int)
        (nocodb_url api_token base_id : Option String) (env : Env) (http : HttpOracle),
        isOkB (find_by_field table_name field value op limit
          nocodb_url api_token base_id env http) = true) ∧
    (∀ (table_name : String) (conditions : List Condition) (logic : String)
        (limit offset : Int) (sort fields nocodb_url api_token base_id : Option String)
        (env : Env) (http : HttpOracle),
        isOkB (find_by_fields table_name conditions logic limit offset sort fields
          nocodb_url api_token base_id env http) = true) := by
  refine ⟨?_, ?_, ?_, ?_, ?_, ?_, ?_⟩
  · intro table_name row_id filters limit offset sort fields nocodb_url api_token base_id
      env http hcfg
    obtain ⟨c, hc⟩ := hcfg
    unfold retrieve_records
    by_cases h : table_name = ""
    · rw [if_pos h]; rfl
    · rw [if_neg h, hc]; rfl
  · intro table_name data bulk nocodb_url api_token base_id env http hcfg
    obtain ⟨c, hc⟩ := hcfg
    unfold create_records
    by_cases h : table_name = ""
    · rw [if_pos h]; rfl
    · rw [if_neg h]
      by_cases h2 : data.isNone = true
      · rw [if_pos h2]; rfl
      · rw [if_neg h2, hc]; rfl
  · intro table_name row_id data bulk bulk_ids nocodb_url api_token base_id env http hcfg
    obtain ⟨c, hc⟩ := hcfg
    unfold update_records
    by_cases h : table_name = ""
    · rw [if_pos h]; rfl
    · rw [if_neg h]
      by_cases h2 : pyTruthyData data = true
      · rw [if_neg (by simp [h2])]
        by_cases h3 : bulk ∧ ¬ pyTruthyIds bulk_ids = true
        · rw [if_pos h3]; rfl
        · rw [if_neg h3]
          by_cases h4 : ¬ bulk ∧ ¬ pyTruthyOpt row_id = true
          · rw [if_pos h4]; rfl
          · rw [if_neg h4, hc]; rfl
      · rw [if_pos (by simp [h2])]; rfl
  · intro table_name row_id bulk bulk_ids nocodb_url api_token base_id env http hcfg
    obtain ⟨c, hc⟩ := hcfg
    unfold delete_records
    by_cases h : table_name = ""
    · rw [if_pos h]; rfl
    · rw [if_neg h]
      by_cases h2 : bulk ∧ ¬ pyTruthyIds bulk_ids = true
      · rw [if_pos h2]; rfl
      · rw [if_neg h2]
        by_cases h3 : ¬ bulk ∧ ¬ pyTruthyOpt row_id = true
        · rw [if_pos h3]; rfl
        · rw [if_neg h3, hc]; rfl
  · intro table_name nocodb_url api_token base_id env http hcfg
    obtain ⟨c, hc⟩ := hcfg
    unfold get_schema
    by_cases h : table_name = ""
    · rw [if_pos h]; rfl
    · rw [if_neg h, hc]; rfl
  · intro table_name field value op limit nocodb_url api_token base_id env http
    unfold find_by_field
    by_cases h : table_name = ""
    · rw [if_pos h]; rfl
    · rw [if_neg h]
      by_cases h2 : field = ""
      · rw [if_pos h2]; rfl
      · rw [if_neg h2]
        by_cases h3 : ¬ (["eq", "neq", "gt", "gte", "lt", "lte", "like", "in",
            "nin"].contains op = true)
        · rw [if_pos h3]; rfl
        · rw [if_neg h3]; rfl
  · intro table_name conditions logic limit offset sort fields nocodb_url api_token
      base_id env http
    unfold find_by_fields
    by_cases h : table_name = ""
    · rw [if_pos h]; rfl
    · rw [if_neg h]
      by_cases h2 : conditions.isEmpty = true
      · rw [if_pos h2]; rfl
      · rw [if_neg h2]; rfl

/-- Witness for C2 (amended): each operation at a concrete input, the
first five with a resolving URL/token configuration, against a remote
that fails at the transport level. -/
theorem c2_amended_witness :
    isOkB (retrieve_records "T" none none (some 10) (some 0) none none
      (some "http://x") (some "tok") (some "b")
      { nocodb_url := none, nocodb_api_token := none, nocodb_base_id := none }
      (fun _ => HttpResult.err "down")) = true ∧
    isOkB (create_records "T" (.obj [("a", .int 1)]) false
      (some "http://x") (some "tok") (some "b")
      { nocodb_url := none, nocodb_api_token := none, nocodb_base_id := none }
      (fun _ => HttpResult.err "down")) = true ∧
    isOkB (update_records "T" (some "5") (some (.obj [("a", .int 1)])) false none
      (some "http://x") (some "tok") (some "b")
      { nocodb_url := none, nocodb_api_token := none, nocodb_base_id := none }
      (fun _ => HttpResult.err "down")) = true ∧
    isOkB (delete_records "T" (some "5") false none
      (some "http://x") (some "tok") (some "b")
      { nocodb_url := none, nocodb_api_token := none, nocodb_base_id := none }
      (fun _ => HttpResult.err "down")) = true ∧
    isOkB (get_schema "T" (some "http://x") (some "tok") (some "b")
      { nocodb_url := none, nocodb_api_token := none, nocodb_base_id := none }
      (fun _ => HttpResult.err "down")) = true ∧
    isOkB (find_by_field "T" "F" (.str "v") "eq" 25 none none none
      { nocodb_url := none, nocodb_api_token := none, nocodb_base_id := none }
      (fun _ => HttpResult.err "down")) = true ∧
    isOkB (find_by_fields "T" [{ field := some "F", value := .null }] "and" 25 0 none none
      none none none
      { nocodb_url := none, nocodb_api_token := none, nocodb_base_id := none }
      (fun _ => HttpResult.err "down")) = true := by
  refine ⟨?_, ?_, ?_, ?_, ?_, ?_, ?_⟩
  · exact c2_amended.1 "T" none none (some 10) (some 0) none none
      (some "http://x") (some "tok") (some "b") _ _ ⟨("http://x", "tok"), rfl⟩
  · exact c2_amended.2.1 "T" (.obj [("a", .int 1)]) false
      (some "http://x") (some "tok") (some "b") _ _ ⟨("http://x", "tok"), rfl⟩
  · exact c2_amended.2.2.1 "T" (some "5") (some (.obj [("a", .int 1)])) false none
      (some "http://x") (some "tok") (some "b") _ _ ⟨("http://x", "tok"), rfl⟩
  · exact c2_amended.2.2.2.1 "T" (some "5") false none
      (some "http://x") (some "tok") (some "b") _ _ ⟨("http://x", "tok"), rfl⟩
  · exact c2_amended.2.2.2.2.1 "T" (some "http://x") (some "tok") (some "b") _ _
      ⟨("http://x", "tok"), rfl⟩
  · exact c2_amended.2.2.2.2.2.1 "T" "F" (.str "v") "eq" 25 none none none _ _
  · exact c2_amended.2.2.2.2.2.2 "T" [{ field := some "F", value := .null }] "and" 25 0
      none none none none none _ _

end Nocodb
